import Mathlib

/-!
Verification of the fluxus conduit-composition core.

This file gives a shallow embedding of the three excerpted source modules:

* `src/fluxus/core/_chained_base_.py` (the chained-composite algebra),
* `src/fluxus/core/producer/_producer_base.py` (the producer hierarchy),
* `src/fluxus/core/transformer/_transformer_base.py` (the transformer
  hierarchy, the `&` grouping operator and the passthrough validation),

and proves the stated properties about it.  Collaborators that the excerpt
imports but whose code is not part of the excerpt (the `Conduit` base class
with `_has_passthrough`, the `Passthrough` marker, `SimpleProducer`,
`SimpleConcurrentProducer` / `SimpleConcurrentTransformer`, and the
generic-type-lattice utilities from `pytools.typing`) are modelled from the
specification; their doc comments say so explicitly.
-/

namespace Fluxus

/-! ## Conduit topology

The composition tree: leaves are serial conduits, `passthrough` is the
identity marker usable inside a concurrent group, `group` is a concurrent
group of members, and `chain` is the chained composite `_ChainedConduit`
with a source and a processor child.
-/

/-- A node of the conduit composition tree. -/
inductive Conduit : Type where
  | leaf (id : Nat)
  | passthrough
  | group (members : List Conduit)
  | chain (source processor : Conduit)

/-- Modelled from the spec: the `_has_passthrough` flag of the `Conduit`
base class (not part of the excerpt).  A plain serial conduit has no
passthrough; the `Passthrough` marker is one; a concurrent group has a
passthrough iff any member does; a chained composite re-exposes the raw
upstream as an output iff both its stages do. -/
def hasPassthrough : Conduit → Bool
  | .leaf _ => false
  | .passthrough => true
  | .group [] => false
  | .group (m :: ms) => hasPassthrough m || hasPassthrough (.group ms)
  | .chain s p => hasPassthrough s && hasPassthrough p

/-- `get_final_conduits`.  The `chain` case is translated from
`_ChainedConduit.get_final_conduits` in `_chained_base_.py`: the source
finals are yielded first iff the processor has a passthrough, then the
processor finals.  The remaining cases are modelled from the spec: a
serial leaf is its own final conduit, a concurrent group yields the
finals of its members in order, and the passthrough marker contributes
none of its own (the raw upstream stands in for it). -/
def getFinalConduits : Conduit → List Conduit
  | .leaf i => [.leaf i]
  | .passthrough => []
  | .group [] => []
  | .group (m :: ms) => getFinalConduits m ++ getFinalConduits (.group ms)
  | .chain s p =>
      (if hasPassthrough p then getFinalConduits s else []) ++ getFinalConduits p

/-- `get_connections(ingoing)`.  The `chain` case is translated from
`_ChainedConduit.get_connections` in `_chained_base_.py`: first the source
connections with the caller-supplied ingoing set, then the processor
connections with `processor_ingoing` = the source finals, extended with
the ingoing set iff the source has a passthrough.  The remaining cases are
modelled from the spec: a serial leaf yields one edge from each ingoing
conduit to itself, a concurrent group yields each member connections with
the same ingoing set, and the passthrough marker yields no edges of its
own. -/
def getConnections : Conduit → List Conduit → List (Conduit × Conduit)
  | .leaf i, ingoing => ingoing.map (fun g => (g, .leaf i))
  | .passthrough, _ => []
  | .group [], _ => []
  | .group (m :: ms), ingoing =>
      getConnections m ingoing ++ getConnections (.group ms) ingoing
  | .chain s p, ingoing =>
      getConnections s ingoing ++
        getConnections p
          (getFinalConduits s ++ (if hasPassthrough s then ingoing else []))

/-- `get_isolated_conduits`.  The `chain` case is translated from
`_ChainedConduit.get_isolated_conduits` in `_chained_base_.py`: chained
conduits are never isolated.  The remaining cases are modelled from the
spec glossary: a standalone serial conduit is isolated, a concurrent group
collects the isolated conduits of its members. -/
def getIsolatedConduits : Conduit → List Conduit
  | .leaf i => [.leaf i]
  | .passthrough => []
  | .group [] => []
  | .group (m :: ms) => getIsolatedConduits m ++ getIsolatedConduits (.group ms)
  | .chain _ _ => []

/-! ## Execution model

A synchronous generator is embedded as the finite list of the items it
yields; an asynchronous generator likewise (the core schedules
cooperatively on one thread, so an async generator also yields a single
determined sequence).
-/

/-- A serial producer: `produce()` returns its item sequence
(`SerialProducer` in `_producer_base.py`, with the abstract `produce`
supplied by the concrete leaf). -/
structure SerialProducer (α : Type) where
  produce : List α

/-- The body of the default `SerialProducer.aproduce` in
`_producer_base.py`: `for product in self.produce(): yield product`,
re-yielding the synchronous sequence item by item. -/
def replayList : List α → List α
  | [] => []
  | x :: xs => x :: replayList xs

/-- `SerialProducer.aproduce` as defined by default in
`_producer_base.py`: replays `produce()` through the item-by-item
adapter. -/
def SerialProducer.aproduceDefault (p : SerialProducer α) : List α :=
  replayList p.produce

/-- `ConcurrentProducer.produce` from `_producer_base.py`:
`for producer in self.iter_concurrent_producers(): yield from producer`.
The group is given by its member list (`iter_concurrent_producers`
enumerates the members in insertion order, modelled from the spec for the
missing `SimpleConcurrentProducer`). -/
def ConcurrentProducer.produce : List (SerialProducer α) → List α
  | [] => []
  | p :: ps => p.produce ++ ConcurrentProducer.produce ps

/-- A serial transformer: `transform(item)` expands one upstream item into
zero or more downstream items (`SerialTransformer` in
`_transformer_base.py`, with the abstract `transform` supplied by the
concrete leaf). -/
structure SerialTransformer (α β : Type) where
  transform : α → List β

/-- `SerialTransformer.process` from `_transformer_base.py`:
`for product in input: yield from self.transform(product)`. -/
def SerialTransformer.process (t : SerialTransformer α β) : List α → List β
  | [] => []
  | x :: xs => t.transform x ++ t.process xs

/-- `SerialTransformer.atransform` as defined by default in
`_transformer_base.py`: `for tx in self.transform(source_product):
yield tx`, replaying the synchronous expansion item by item. -/
def SerialTransformer.atransformDefault (t : SerialTransformer α β) (x : α) :
    List β :=
  replayList (t.transform x)

/-- A one-shot iterator: the input handed to
`ConcurrentTransformer.process` may be an iterator that can be consumed
only once.  `remaining` is what a consumer would still receive. -/
structure OneShotIterator (α : Type) where
  remaining : List α

/-- Consuming a one-shot iterator to the end: returns everything it still
held, leaving it exhausted. -/
def OneShotIterator.drain (it : OneShotIterator α) :
    List α × OneShotIterator α :=
  (it.remaining, ⟨[]⟩)

/-- A member of a concurrent transformer group: a transformer branch or
the passthrough marker. -/
inductive GroupMember (α : Type) : Type where
  | transformer (t : SerialTransformer α α)
  | passthroughMember

/-- Modelled from the spec: `iter_concurrent_producers(source)` of the
concurrent group (`SimpleConcurrentTransformer` is not part of the
excerpt) followed by the synchronous branch-by-branch concatenation of
`ConcurrentProducer.produce`.  For each member in order: a transformer
branch contributes `source >> member`, i.e. the member processed over the
shared source sequence (`SerialTransformer.process` from the excerpt); a
passthrough contributes the source sequence unchanged. -/
def fanOut : List (GroupMember α) → List α → List α
  | [], _ => []
  | .transformer t :: ms, source => t.process source ++ fanOut ms source
  | .passthroughMember :: ms, source => source ++ fanOut ms source

/-- `ConcurrentTransformer.process` from `_transformer_base.py`:
`iter(SimpleProducer[self.input_type](input) >> self)`.  Modelled from
the spec for the missing `SimpleProducer`: the input sequence is
materialized into a reusable collection first (the one-shot iterator is
drained exactly once), and every branch then fans out over that
materialized collection.  Returns the produced items together with the
iterator state left behind. -/
def ConcurrentTransformer.process (members : List (GroupMember α))
    (input : OneShotIterator α) : List α × OneShotIterator α :=
  let materialized := input.drain
  (fanOut members materialized.1, materialized.2)

/-! ## Type algebra and the `&` grouping operator

The generic-type-lattice collaborator (`pytools.typing`) is external to
the excerpt; it is modelled from the spec as an oracle over a small
concrete lattice of type tags.
-/

/-- Modelled from the spec: semantic type tags.  A small concrete lattice:
`never <: int <: num <: obj`, `never <: text <: obj`. -/
inductive Ty : Type where
  | obj
  | num
  | int
  | text
  | never
deriving DecidableEq, Repr

/-- Modelled from the spec: the subtype predicate of the type-lattice
collaborator (`issubclass_generic` in `pytools.typing`). -/
def issubclass_generic : Ty → Ty → Bool
  | .never, _ => true
  | _, .obj => true
  | .int, .num => true
  | a, b => a == b

/-- Modelled from the spec: the common generic ancestor of two type tags
(`get_common_generic_base` in `pytools.typing`). -/
def get_common_generic_base (a b : Ty) : Ty :=
  if issubclass_generic a b then b
  else if issubclass_generic b a then a
  else .obj

/-- Modelled from the spec: the common generic descendant of two type tags
(`get_common_generic_subclass` in `pytools.typing`). -/
def get_common_generic_subclass (a b : Ty) : Ty :=
  if issubclass_generic a b then a
  else if issubclass_generic b a then b
  else .never

/-- The type signature of a `BaseTransformer`: its declared `input_type`
and `product_type` tags, which are all the `&` operator consults. -/
structure TypedTransformer : Type where
  input_type : Ty
  product_type : Ty
deriving DecidableEq, Repr

/-- The type signature of a `BaseProducer`: its declared `product_type`
tag. -/
structure TypedProducer : Type where
  product_type : Ty
deriving DecidableEq, Repr

/-- A possible right operand of `BaseTransformer.__and__` (or left operand
of `__rand__`): another transformer, the `Passthrough` marker, or a value
of some unsupported class. -/
inductive TransformerOperand : Type where
  | transformer (t : TypedTransformer)
  | passthrough
  | unsupported
deriving DecidableEq, Repr

/-- The outcome of evaluating `BaseTransformer.__and__` or `__rand__`:
the reflected-protocol sentinel `NotImplemented`, a raised `TypeError`, or
a constructed `SimpleConcurrentTransformer` group carrying its computed
`input_type`, `product_type` and its member list in order. -/
inductive TransformerAndResult : Type where
  | notImplemented
  | typeError
  | concurrentGroup (input_type product_type : Ty)
      (members : List TransformerOperand)
deriving DecidableEq, Repr

/-- `_validate_concurrent_passthrough` from `_transformer_base.py`: a
transformer paired with a passthrough is valid iff its input type is a
subtype of its product type (the passthrough itself is always valid). -/
def validate_concurrent_passthrough : TransformerOperand → Bool
  | .passthrough => true
  | .transformer t => issubclass_generic t.input_type t.product_type
  | .unsupported => false

/-- `BaseTransformer.__and__` from `_transformer_base.py`.  If the other
operand is a `Passthrough`, validate `self` first (raising `TypeError` on
failure, before any group is constructed) and keep the own types; if it is
not a `BaseTransformer` either, return `NotImplemented`; otherwise compute
the common generic descendant of the input types and the common generic
ancestor of the product types.  On success construct the concurrent group
`(self, other)`. -/
def BaseTransformer.andOp (self : TypedTransformer)
    (other : TransformerOperand) : TransformerAndResult :=
  match other with
  | .passthrough =>
      if validate_concurrent_passthrough (.transformer self) then
        .concurrentGroup self.input_type self.product_type
          [.transformer self, .passthrough]
      else .typeError
  | .transformer o =>
      .concurrentGroup
        (get_common_generic_subclass self.input_type o.input_type)
        (get_common_generic_base self.product_type o.product_type)
        [.transformer self, .transformer o]
  | .unsupported => .notImplemented

/-- `BaseTransformer.__rand__` from `_transformer_base.py`, reached when
the grouping is written `Passthrough & self`: if the other operand is a
`Passthrough`, validate `self` first (raising `TypeError` on failure,
before any group is constructed) and construct the concurrent group
`(other, self)`; otherwise return `NotImplemented`. -/
def BaseTransformer.randOp (self : TypedTransformer)
    (other : TransformerOperand) : TransformerAndResult :=
  match other with
  | .passthrough =>
      if validate_concurrent_passthrough (.transformer self) then
        .concurrentGroup self.input_type self.product_type
          [.passthrough, .transformer self]
      else .typeError
  | _ => .notImplemented

/-- A possible right operand of `BaseProducer.__and__`: another producer
or a value of some unsupported class. -/
inductive ProducerOperand : Type where
  | producer (p : TypedProducer)
  | unsupported
deriving DecidableEq, Repr

/-- The outcome of evaluating `BaseProducer.__and__`: the sentinel
`NotImplemented` or a constructed `SimpleConcurrentProducer` group
carrying its computed `product_type` and its member list in order. -/
inductive ProducerAndResult : Type where
  | notImplemented
  | concurrentGroup (product_type : Ty) (members : List TypedProducer)
deriving DecidableEq, Repr

/-- `BaseProducer.__and__` from `_producer_base.py`: if the other operand
is a `BaseProducer`, construct the concurrent group `(self, other)` with
the common generic ancestor of the two product types; otherwise return
`NotImplemented`. -/
def BaseProducer.andOp (self : TypedProducer) (other : ProducerOperand) :
    ProducerAndResult :=
  match other with
  | .producer o =>
      .concurrentGroup
        (get_common_generic_base self.product_type o.product_type)
        [self, o]
  | .unsupported => .notImplemented

/-! ## Helper lemmas -/

/-- The item-by-item replay adapter yields exactly its input sequence. -/
lemma replayList_eq (l : List α) : replayList l = l := by
  induction l with
  | nil => rfl
  | cons x xs ih => simp [replayList, ih]

/-- `SerialTransformer.process` is the monadic bind (flattening) of
`transform` over the input list. -/
lemma serialTransformer_process_eq_bind (t : SerialTransformer α β)
    (input : List α) : t.process input = input.flatMap t.transform := by
  induction input with
  | nil => rfl
  | cons x xs ih => simp [SerialTransformer.process, ih, List.flatMap]

/-! ## Claim theorems -/

/-- C1: for every chained composite `C = chain(S, P)`,
`C.get_final_conduits()` yields the elements of `S.get_final_conduits()`
first exactly when the processor `P` contains a passthrough member, and in
every case then yields the elements of `P.get_final_conduits()`; in
particular, for single-leaf `S` and `T`,
`chain(S, group(T, Passthrough)).get_final_conduits()` yields exactly two
conduits: the final of `S` followed by the final of `T`. -/
theorem chain_getFinalConduits_passthrough (S P : Conduit) :
    getFinalConduits (.chain S P) =
      (if hasPassthrough P then getFinalConduits S else []) ++
        getFinalConduits P ∧
    ∀ s t : Nat,
      getFinalConduits
          (.chain (.leaf s) (.group [.leaf t, .passthrough])) =
        [.leaf s, .leaf t] := by
  refine ⟨?_, fun s t => ?_⟩
  · rw [getFinalConduits]
  · simp [getFinalConduits, hasPassthrough]

/-- C3: for every chained composite `C = chain(S, P)` and every ingoing
collection, `C.get_connections(ingoing)` yields exactly the connections of
`S` computed with the caller-supplied ingoing set, followed by the
connections of `P` computed with `processor_ingoing`, where
`processor_ingoing` is the final conduits of `S` extended with the
caller-supplied ingoing set exactly when `S` itself contains a
passthrough.  The concrete instance shows the bypass edge: with a
passthrough inside the source, the original ingoing conduit also feeds the
processor. -/
theorem chain_getConnections_ingoing (S P : Conduit)
    (ingoing : List Conduit) :
    getConnections (.chain S P) ingoing =
      getConnections S ingoing ++
        getConnections P
          (getFinalConduits S ++
            (if hasPassthrough S then ingoing else [])) ∧
    getConnections
        (.chain (.group [.leaf 1, .passthrough]) (.leaf 2)) [.leaf 0] =
      [(.leaf 0, .leaf 1), (.leaf 1, .leaf 2), (.leaf 0, .leaf 2)] := by
  refine ⟨?_, ?_⟩
  · rw [getConnections]
  · simp [getConnections, getFinalConduits, hasPassthrough]

/-- C9: for every chained composite, `get_isolated_conduits()` yields
nothing, regardless of its source and processor children. -/
theorem chain_getIsolatedConduits_empty (S P : Conduit) :
    getIsolatedConduits (.chain S P) = [] := by
  rw [getIsolatedConduits]

/-- C5: for every `ConcurrentProducer` group, `produce()` yields the
concatenation of each member producer's synchronous sequence in
enumeration order, strictly branch by branch; in particular a group of a
producer emitting `[1, 2]` and a producer emitting `[3, 4]` produces
exactly `[1, 2, 3, 4]` in that order. -/
theorem concurrentProducer_produce_concat {α : Type}
    (ps : List (SerialProducer α)) :
    ConcurrentProducer.produce ps = (ps.map SerialProducer.produce).flatten ∧
    ConcurrentProducer.produce
        [(⟨[1, 2]⟩ : SerialProducer Nat), ⟨[3, 4]⟩] = [1, 2, 3, 4] := by
  constructor
  · induction ps with
    | nil => rfl
    | cons p ps ih => simp [ConcurrentProducer.produce, ih]
  · rfl

/-- C6: for every `SerialTransformer` and every upstream input sequence,
`process(input)` yields the flattening of `transform` over every upstream
item, preserving upstream item order; in particular a transformer mapping
each `x` to `[x, x]` applied to `[1, 2]` yields `[1, 1, 2, 2]`. -/
theorem serialTransformer_process_flatten {α β : Type}
    (t : SerialTransformer α β) (input : List α) :
    t.process input = input.flatMap t.transform ∧
    SerialTransformer.process (⟨fun x => [x, x]⟩ : SerialTransformer Nat Nat)
        [1, 2] = [1, 1, 2, 2] := by
  exact ⟨serialTransformer_process_eq_bind t input, rfl⟩

/-- C7: the default asynchronous variants are faithful replays of the
synchronous ones: for a `SerialProducer` that keeps the default
`aproduce`, it yields exactly the items of `produce()` in order, and for a
`SerialTransformer` that keeps the default `atransform`, it yields exactly
the items of `transform(item)` in order. -/
theorem default_async_replays_sync {α β : Type} (p : SerialProducer α)
    (t : SerialTransformer α β) (x : α) :
    p.aproduceDefault = p.produce ∧
    t.atransformDefault x = t.transform x := by
  exact ⟨replayList_eq p.produce, replayList_eq (t.transform x)⟩

/-- C2: `ConcurrentTransformer.process` materializes its input into a
reusable collection before fanning out: with a one-shot iterator as input,
every branch of a two-branch group still transforms the complete input
sequence — the produced items are the full flattening of the first branch
over the whole input followed by the full flattening of the second branch
over the whole input, and the one-shot input has been consumed exactly
once (it is left exhausted). -/
theorem concurrentTransformer_process_materializes {α : Type}
    (f g : SerialTransformer α α) (it : OneShotIterator α) :
    (ConcurrentTransformer.process [.transformer f, .transformer g] it).1 =
      it.remaining.flatMap f.transform ++ it.remaining.flatMap g.transform ∧
    (ConcurrentTransformer.process
        [.transformer f, .transformer g] it).2.remaining = [] := by
  constructor
  · show fanOut [.transformer f, .transformer g] it.remaining = _
    simp [fanOut, serialTransformer_process_eq_bind]
  · rfl

/-- C4: grouping a transformer `T` with a `Passthrough` via `&`, in either
operand order, raises `TypeError` exactly when `T.input_type` is not a
subtype of `T.product_type` according to the type-lattice oracle, and
returns a constructed concurrent group exactly when the subtype relation
holds — so on failure no group value is ever returned. -/
theorem passthrough_group_typeError_iff (t : TypedTransformer) :
    (BaseTransformer.andOp t .passthrough = .typeError ↔
      issubclass_generic t.input_type t.product_type = false) ∧
    (BaseTransformer.randOp t .passthrough = .typeError ↔
      issubclass_generic t.input_type t.product_type = false) ∧
    ((∃ i p ms, BaseTransformer.andOp t .passthrough =
        .concurrentGroup i p ms) ↔
      issubclass_generic t.input_type t.product_type = true) ∧
    ((∃ i p ms, BaseTransformer.randOp t .passthrough =
        .concurrentGroup i p ms) ↔
      issubclass_generic t.input_type t.product_type = true) := by
  cases h : issubclass_generic t.input_type t.product_type <;>
    simp [BaseTransformer.andOp, BaseTransformer.randOp,
      validate_concurrent_passthrough, h]

/-- C8: grouping two transformers with `&` yields a concurrent group whose
`product_type` is the common generic ancestor of the operands' product
types and whose `input_type` is the common generic descendant of the
operands' input types; grouping two producers yields a concurrent group
whose `product_type` is the common generic ancestor of the operands'
product types — all computed by the type-lattice collaborator. -/
theorem group_types_from_lattice (t o : TypedTransformer)
    (p q : TypedProducer) :
    BaseTransformer.andOp t (.transformer o) =
      .concurrentGroup
        (get_common_generic_subclass t.input_type o.input_type)
        (get_common_generic_base t.product_type o.product_type)
        [.transformer t, .transformer o] ∧
    BaseProducer.andOp p (.producer q) =
      .concurrentGroup
        (get_common_generic_base p.product_type q.product_type) [p, q] :=
  ⟨rfl, rfl⟩

/-- C10: applying the `&` operator of a `BaseProducer` or
`BaseTransformer` to an operand of an unsupported capability returns
`NotImplemented` without raising and without constructing any group. -/
theorem andOp_unsupported_notImplemented (p : TypedProducer)
    (t : TypedTransformer) :
    BaseProducer.andOp p .unsupported = .notImplemented ∧
    BaseTransformer.andOp t .unsupported = .notImplemented ∧
    BaseTransformer.randOp t .unsupported = .notImplemented :=
  ⟨rfl, rfl, rfl⟩

end Fluxus
